import Mathlib

/-!
# Register catalog and allocation-order policy of the GOAL compiler backend

A shallow embedding of `goalc/emitter/Register.cpp`: the table of per-register
descriptors built by `RegisterInfo::make_register_info`, the calling-convention
argument list, the saved-register lists, the four allocation-order lists, and
`Register::print`.  The header `Register.h` (enumerator values, the `Info`
record declaration, the array sizes, the accessors) is not part of the
available sources; what is needed from it is marked as such below.
-/

namespace emitter

/-- The physical registers named by `Register.cpp`: the sixteen general-purpose
registers and the sixteen `XMM` registers.  The source indexes `m_info` with
these enumerators. -/
inductive Register where
  | RAX | RCX | RDX | RBX | RSP | RBP | RSI | RDI
  | R8 | R9 | R10 | R11 | R12 | R13 | R14 | R15
  | XMM0 | XMM1 | XMM2 | XMM3 | XMM4 | XMM5 | XMM6 | XMM7
  | XMM8 | XMM9 | XMM10 | XMM11 | XMM12 | XMM13 | XMM14 | XMM15
  deriving DecidableEq, Repr

/-- The two register classes, as switched on by `to_string(RegKind)`. -/
inductive RegKind where
  | GPR
  | XMM
  deriving DecidableEq, Repr

/-- One register descriptor.  The source fills it positionally as
`{argument_id, saved, special, name}`. -/
structure Info where
  /-- calling-convention slot, `-1` when the register passes no argument -/
  argument_id : Int
  /-- does the callee save it -/
  saved : Bool
  /-- is it a register bound to a runtime role -/
  special : Bool
  /-- mnemonic -/
  name : String
  deriving DecidableEq, Repr

/-- Modelled from the spec: the value of a default-constructed `Info`, whose
declaration (with its member initialisers) is in `Register.h`, which is not
available.  The spec gives "none" (`-1`) as the argument slot of a register that
passes no argument and describes the vector registers, which the source never
assigns, as non-reserved; a default-constructed `std::string` is empty. -/
def defaultInfo : Info := ⟨-1, false, false, ""⟩

/-- Modelled from the spec: `N_ARGS`, declared in `Register.h`; the spec gives
`N = 8` argument registers, the length of the initialiser of `m_arg_regs`. -/
def N_ARGS : Nat := 8

/-- Modelled from the spec: `N_SAVED_GPRS`, declared in `Register.h`; taken as
the length of the initialiser of `m_saved_gprs`. -/
def N_SAVED_GPRS : Nat := 5

/-- Modelled from the spec: `N_SAVED_XMMS`, declared in `Register.h`; taken as
the length of the initialiser of `m_saved_xmms`. -/
def N_SAVED_XMMS : Nat := 8

/-- The state of a `RegisterInfo` object.  `m_info` is the array indexed by
register; `m_saved_all` has entries that are unset until the copy loops have
run. -/
structure RegisterInfo where
  m_info : Register → Info
  m_arg_regs : List Register
  m_saved_gprs : List Register
  m_saved_xmms : List Register
  m_saved_all : List (Option Register)
  m_gpr_alloc_order : List Register
  m_xmm_alloc_order : List Register
  m_gpr_spill_temp_alloc_order : List Register
  m_xmm_spill_temp_alloc_order : List Register

/-- The object right after `RegisterInfo info;`: every descriptor is the
default-constructed one `dflt`, nothing else is filled in. -/
def RegisterInfo.fresh (dflt : Info) : RegisterInfo where
  m_info := fun _ => dflt
  m_arg_regs := []
  m_saved_gprs := []
  m_saved_xmms := []
  m_saved_all := List.replicate (N_SAVED_GPRS + N_SAVED_XMMS) none
  m_gpr_alloc_order := []
  m_xmm_alloc_order := []
  m_gpr_spill_temp_alloc_order := []
  m_xmm_spill_temp_alloc_order := []

/-- The assignment `info.m_info[r] = v`. -/
def RegisterInfo.set_info (info : RegisterInfo) (r : Register) (v : Info) : RegisterInfo :=
  { info with m_info := fun x => if x = r then v else info.m_info x }

/-- The loop `for (i = 0; i < n; i++) dst[i + off] = src[i];`. -/
def copy_saved (src : List Register) (off n : Nat) (dst : List (Option Register)) :
    List (Option Register) :=
  (List.range n).foldl (fun acc i => acc.set (i + off) src[i]?) dst

open Register in
/-- The function `RegisterInfo::make_register_info`, statement by statement.
The default-constructed descriptor is a parameter: the source assigns the
sixteen general-purpose entries of `m_info` and no other. -/
def RegisterInfo.make_register_info (dflt : Info) : RegisterInfo :=
  let info := RegisterInfo.fresh dflt
  let info := info.set_info RAX ⟨-1, false, false, "rax"⟩
  let info := info.set_info RCX ⟨3, false, false, "rcx"⟩
  let info := info.set_info RDX ⟨2, false, false, "rdx"⟩
  let info := info.set_info RBX ⟨-1, true, false, "rbx"⟩
  let info := info.set_info RSP ⟨-1, false, true, "rsp"⟩
  let info := info.set_info RBP ⟨-1, true, false, "rbp"⟩
  let info := info.set_info RSI ⟨1, false, false, "rsi"⟩
  let info := info.set_info RDI ⟨0, false, false, "rdi"⟩
  let info := info.set_info R8 ⟨4, false, false, "r8"⟩
  let info := info.set_info R9 ⟨5, false, false, "r9"⟩
  let info := info.set_info R10 ⟨6, true, false, "r10"⟩
  let info := info.set_info R11 ⟨7, true, false, "r11"⟩
  let info := info.set_info R12 ⟨-1, true, false, "r12"⟩
  let info := info.set_info R13 ⟨-1, false, true, "r13"⟩
  let info := info.set_info R14 ⟨-1, false, true, "r14"⟩
  let info := info.set_info R15 ⟨-1, false, true, "r15"⟩
  let info := { info with m_arg_regs := [RDI, RSI, RDX, RCX, R8, R9, R10, R11] }
  let info := { info with m_saved_gprs := [RBX, RBP, R10, R11, R12] }
  let info := { info with
    m_saved_xmms := [XMM8, XMM9, XMM10, XMM11, XMM12, XMM13, XMM14, XMM15] }
  let info := { info with
    m_saved_all := copy_saved info.m_saved_gprs 0 N_SAVED_GPRS info.m_saved_all }
  let info := { info with
    m_saved_all := copy_saved info.m_saved_xmms N_SAVED_GPRS N_SAVED_XMMS info.m_saved_all }
  let info := { info with
    m_gpr_alloc_order := [RAX, RCX, RDX, RBX, RBP, RSI, RDI, R8, R9, R10, R11] }
  let info := { info with
    m_xmm_alloc_order := [XMM0, XMM1, XMM2, XMM3, XMM4, XMM5, XMM6, XMM7,
                          XMM8, XMM9, XMM10, XMM11, XMM12, XMM13, XMM14] }
  let info := { info with
    m_gpr_spill_temp_alloc_order := [RAX, RCX, RDX, RBX, RBP, RSI,
                                     RDI, R8, R9, R10, R11, R12] }
  let info := { info with
    m_xmm_spill_temp_alloc_order := [XMM0, XMM1, XMM2, XMM3, XMM4, XMM5, XMM6, XMM7,
                                     XMM8, XMM9, XMM10, XMM11, XMM12, XMM13, XMM14, XMM15] }
  info

/-- The global `gRegInfo = RegisterInfo::make_register_info()`. -/
def gRegInfo : RegisterInfo := RegisterInfo.make_register_info defaultInfo

/-- Modelled from the spec: the accessor `get_info` of `Register.h` (not
available), the spec's `describe`: a total lookup of the descriptor of a
register. -/
def RegisterInfo.get_info (info : RegisterInfo) (r : Register) : Info :=
  info.m_info r

/-- Modelled from the spec: the accessor behind `argument_register` (declared in
`Register.h`, not available): defined for `0 <= slot_index < N`, where it
reads the argument list at that position, and failing outside that range. -/
def RegisterInfo.get_arg_reg (info : RegisterInfo) (id : Int) : Option Register :=
  if 0 ≤ id ∧ id < (N_ARGS : Int) then info.m_arg_regs[id.toNat]? else none

/-- Modelled from the spec: `class_of`, the class of a register (the class test
lives in `Register.h`, not available): the general-purpose sub-table is
`RAX .. R15`, the vector sub-table is `XMM0 .. XMM15`. -/
def Register.class_of : Register → RegKind
  | .RAX | .RCX | .RDX | .RBX | .RSP | .RBP | .RSI | .RDI
  | .R8 | .R9 | .R10 | .R11 | .R12 | .R13 | .R14 | .R15 => RegKind.GPR
  | _ => RegKind.XMM

/-- The method `Register::print`: the name stored in the global catalog. -/
def Register.print (r : Register) : String :=
  (gRegInfo.get_info r).name

/-- A non-empty mnemonic made of lowercase letters and digits only. -/
def is_lowercase_mnemonic (s : String) : Bool :=
  s.data != [] && s.data.all (fun c => c.isLower || c.isDigit)

/-- The primary allocation order of a class. -/
def RegisterInfo.primary_order (info : RegisterInfo) : RegKind → List Register
  | RegKind.GPR => info.m_gpr_alloc_order
  | RegKind.XMM => info.m_xmm_alloc_order

/-- The spill-temporary allocation order of a class. -/
def RegisterInfo.spill_temp_order (info : RegisterInfo) : RegKind → List Register
  | RegKind.GPR => info.m_gpr_spill_temp_alloc_order
  | RegKind.XMM => info.m_xmm_spill_temp_alloc_order

open Register

/-! ## Evaluation lemmas -/

/-- The copy loops leave `m_saved_all` equal to the saved general-purpose
registers followed by the saved vector registers. -/
theorem saved_all_eq :
    gRegInfo.m_saved_all = (gRegInfo.m_saved_gprs ++ gRegInfo.m_saved_xmms).map some := by
  decide

/-- The source never assigns a vector entry of `m_info`: whatever the
default-constructed descriptor is, every vector register keeps it. -/
theorem make_register_info_xmm (dflt : Info) (r : Register)
    (h : r.class_of = RegKind.XMM) :
    (RegisterInfo.make_register_info dflt).get_info r = dflt := by
  cases r <;> first | rfl | exact absurd h (by decide)

/-- The reserved registers of the catalog are `rsp`, `r13`, `r14`, `r15`. -/
theorem special_iff (r : Register) :
    (gRegInfo.get_info r).special = true ↔ r = RSP ∨ r = R13 ∨ r = R14 ∨ r = R15 := by
  cases r <;> decide

/-- The descriptors with `saved = true` are exactly the registers of
`m_saved_gprs`. -/
theorem saved_gpr_iff (r : Register) :
    (gRegInfo.get_info r).saved = true ↔ r ∈ gRegInfo.m_saved_gprs := by
  cases r <;> decide

/-- A defined argument slot belongs to one register only. -/
theorem argument_id_inj (r1 r2 : Register)
    (h1 : (gRegInfo.get_info r1).argument_id ≠ -1)
    (h : (gRegInfo.get_info r1).argument_id = (gRegInfo.get_info r2).argument_id) :
    r1 = r2 := by
  revert h1 h
  cases r1 <;> cases r2 <;> decide

/-- Every argument slot of the catalog is `-1` or one of `0 .. 7`. -/
theorem argument_id_range (r : Register) :
    (gRegInfo.get_info r).argument_id = -1 ∨
      (0 ≤ (gRegInfo.get_info r).argument_id ∧ (gRegInfo.get_info r).argument_id < 8) := by
  cases r <;> decide

/-- The argument list read at an in-range index gives a register whose
descriptor carries that index. -/
theorem get_arg_reg_in_range (i : Int) (h0 : 0 ≤ i) (h8 : i < 8) :
    ∃ r, gRegInfo.get_arg_reg i = some r ∧ (gRegInfo.get_info r).argument_id = i := by
  interval_cases i
  · exact ⟨RDI, by decide, by decide⟩
  · exact ⟨RSI, by decide, by decide⟩
  · exact ⟨RDX, by decide, by decide⟩
  · exact ⟨RCX, by decide, by decide⟩
  · exact ⟨R8, by decide, by decide⟩
  · exact ⟨R9, by decide, by decide⟩
  · exact ⟨R10, by decide, by decide⟩
  · exact ⟨R11, by decide, by decide⟩

/-- The lookup fails outside `0 .. 7`, whatever the argument list holds. -/
theorem get_arg_reg_out_of_range (info : RegisterInfo) (i : Int) (h : ¬ (0 ≤ i ∧ i < 8)) :
    info.get_arg_reg i = none := by
  unfold RegisterInfo.get_arg_reg
  have h2 : ¬ (0 ≤ i ∧ i < (N_ARGS : Int)) := by
    simpa [N_ARGS] using h
  rw [if_neg h2]

/-- The sixteen general-purpose names are lowercase mnemonics. -/
theorem gpr_names_lowercase (r : Register) (h : r.class_of = RegKind.GPR) :
    is_lowercase_mnemonic r.print = true := by
  cases r <;> first | decide | exact absurd h (by decide)

/-- The sixteen general-purpose names are pairwise distinct. -/
theorem gpr_names_distinct (r1 r2 : Register) (h1 : r1.class_of = RegKind.GPR)
    (h2 : r2.class_of = RegKind.GPR) (h : r1.print = r2.print) : r1 = r2 := by
  revert h1 h2 h
  cases r1 <;> cases r2 <;> decide

/-! ## The catalog invariants -/

/-- C1: a register whose descriptor has `special = true` is one of `rsp`, `r13`,
`r14`, `r15`, and it occurs in none of the four allocation-order lists. -/
theorem reserved_not_in_alloc_orders (r : Register)
    (h : (gRegInfo.get_info r).special = true) :
    (r = RSP ∨ r = R13 ∨ r = R14 ∨ r = R15) ∧
    r ∉ gRegInfo.m_gpr_alloc_order ∧
    r ∉ gRegInfo.m_xmm_alloc_order ∧
    r ∉ gRegInfo.m_gpr_spill_temp_alloc_order ∧
    r ∉ gRegInfo.m_xmm_spill_temp_alloc_order := by
  revert h
  cases r <;> decide

/-- Instance of C1 at `r13`, which is reserved. -/
theorem reserved_not_in_alloc_orders_witness :
    (gRegInfo.get_info R13).special = true ∧
    R13 ∉ gRegInfo.m_gpr_alloc_order ∧
    R13 ∉ gRegInfo.m_xmm_alloc_order ∧
    R13 ∉ gRegInfo.m_gpr_spill_temp_alloc_order ∧
    R13 ∉ gRegInfo.m_xmm_spill_temp_alloc_order :=
  ⟨by decide, (reserved_not_in_alloc_orders R13 (by decide)).2⟩

/-- C2: a value `k` other than "none" (`-1`) is the argument slot of some
register exactly when `0 <= k < 8`, and then of one register only: the defined
slots are pairwise distinct and form the set `0 .. 7`. -/
theorem argument_slots_dense (k : Int) (hk : k ≠ -1) :
    ((∃ r, (gRegInfo.get_info r).argument_id = k) ↔ 0 ≤ k ∧ k < 8) ∧
    (∀ r1 r2, (gRegInfo.get_info r1).argument_id = k →
      (gRegInfo.get_info r2).argument_id = k → r1 = r2) := by
  refine ⟨⟨?_, ?_⟩, ?_⟩
  · rintro ⟨r, hr⟩
    rcases argument_id_range r with h | h
    · exact absurd (hr ▸ h) hk
    · exact hr ▸ h
  · rintro ⟨h0, h8⟩
    obtain ⟨r, -, hr⟩ := get_arg_reg_in_range k h0 h8
    exact ⟨r, hr⟩
  · intro r1 r2 h1 h2
    exact argument_id_inj r1 r2 (by rw [h1]; exact hk) (h1.trans h2.symm)

/-- Instance of C2 at slot `3`, held by `rcx` alone. -/
theorem argument_slots_dense_witness :
    ((∃ r, (gRegInfo.get_info r).argument_id = 3) ↔ (0 : Int) ≤ 3 ∧ (3 : Int) < 8) ∧
    (∀ r1 r2, (gRegInfo.get_info r1).argument_id = 3 →
      (gRegInfo.get_info r2).argument_id = 3 → r1 = r2) :=
  argument_slots_dense 3 (by decide)

/-- C3: the lookup returns a register for every index `0 <= i < 8`, and the
register returned is the one, and the only one, whose descriptor has
`argument_id = i`; it fails for every other index.  Slot `0` gives `rdi`, slot
`8` fails. -/
theorem argument_register_lookup (i : Int) :
    (0 ≤ i ∧ i < 8 →
      ∃ r, gRegInfo.get_arg_reg i = some r ∧ (gRegInfo.get_info r).argument_id = i ∧
        ∀ r2, (gRegInfo.get_info r2).argument_id = i → r2 = r) ∧
    (¬ (0 ≤ i ∧ i < 8) → gRegInfo.get_arg_reg i = none) ∧
    gRegInfo.get_arg_reg 0 = some RDI ∧
    gRegInfo.get_arg_reg 8 = none := by
  refine ⟨?_, get_arg_reg_out_of_range gRegInfo i, by decide, by decide⟩
  rintro ⟨h0, h8⟩
  obtain ⟨r, hr, hid⟩ := get_arg_reg_in_range i h0 h8
  refine ⟨r, hr, hid, fun r2 h2 => ?_⟩
  have hne : (gRegInfo.get_info r).argument_id ≠ -1 := by
    rw [hid]; omega
  exact (argument_id_inj r r2 hne (hid.trans h2.symm)).symm

/-- Instance of C3 at index `7` (in range, `r11`) and at index `-1` (out of
range). -/
theorem argument_register_lookup_witness :
    (∃ r, gRegInfo.get_arg_reg 7 = some r ∧ (gRegInfo.get_info r).argument_id = 7 ∧
        ∀ r2, (gRegInfo.get_info r2).argument_id = 7 → r2 = r) ∧
    gRegInfo.get_arg_reg (-1) = none :=
  ⟨(argument_register_lookup 7).1 (by decide),
   (argument_register_lookup (-1)).2.1 (by decide)⟩

/-- C4: a register of the general-purpose primary order is in the
general-purpose spill-temporary order, and a register of the vector primary
order is in the vector spill-temporary order. -/
theorem primary_subset_spill_temp (r : Register) :
    (r ∈ gRegInfo.m_gpr_alloc_order → r ∈ gRegInfo.m_gpr_spill_temp_alloc_order) ∧
    (r ∈ gRegInfo.m_xmm_alloc_order → r ∈ gRegInfo.m_xmm_spill_temp_alloc_order) := by
  cases r <;> decide

/-- Instance of C4 at `rbx` and at `xmm14`. -/
theorem primary_subset_spill_temp_witness :
    RBX ∈ gRegInfo.m_gpr_spill_temp_alloc_order ∧
    XMM14 ∈ gRegInfo.m_xmm_spill_temp_alloc_order :=
  ⟨(primary_subset_spill_temp RBX).1 (by decide),
   (primary_subset_spill_temp XMM14).2 (by decide)⟩

/-- C5: no descriptor of the catalog has both `special` and `saved` set. -/
theorem reserved_callee_saved_exclusive (r : Register) :
    ((gRegInfo.get_info r).special && (gRegInfo.get_info r).saved) = false := by
  cases r <;> decide

/-- C6, as stated, fails at `r12` and at `xmm15`: each is a non-reserved
register of its class, and neither occurs once in the primary order of its
class. -/
theorem primary_order_misses_r12_xmm15 :
    ¬ ((gRegInfo.get_info R12).special = false →
        (gRegInfo.primary_order R12.class_of).count R12 = 1) ∧
    ¬ ((gRegInfo.get_info XMM15).special = false →
        (gRegInfo.primary_order XMM15.class_of).count XMM15 = 1) := by
  decide

/-- C6, amended: every non-reserved register other than `r12` and `xmm15`
occurs exactly once in the primary order of its class; `r12` and `xmm15` are
not reserved, occur zero times in the primary order of their class and once in
its spill-temporary order. -/
theorem nonreserved_in_primary_once (r : Register)
    (h : (gRegInfo.get_info r).special = false) (h12 : r ≠ R12) (h15 : r ≠ XMM15) :
    (gRegInfo.primary_order r.class_of).count r = 1 ∧
    ((gRegInfo.get_info R12).special = false ∧
      (gRegInfo.primary_order R12.class_of).count R12 = 0 ∧
      (gRegInfo.spill_temp_order R12.class_of).count R12 = 1) ∧
    ((gRegInfo.get_info XMM15).special = false ∧
      (gRegInfo.primary_order XMM15.class_of).count XMM15 = 0 ∧
      (gRegInfo.spill_temp_order XMM15.class_of).count XMM15 = 1) := by
  revert h h12 h15
  cases r <;> decide

/-- Instance of the amended C6 at `r11`. -/
theorem nonreserved_in_primary_once_witness :
    (gRegInfo.get_info R11).special = false ∧
    (gRegInfo.primary_order R11.class_of).count R11 = 1 :=
  ⟨by decide, (nonreserved_in_primary_once R11 (by decide) (by decide) (by decide)).1⟩

/-- C7: among the general-purpose registers, `r12` is the one register that is
in the spill-temporary order and not in the primary order; it is callee-saved,
not reserved, occurs once in the spill-temporary order and zero times in the
primary order; every other non-reserved general-purpose register is in both
orders. -/
theorem r12_only_spill_temp_extra (r : Register) (hc : r.class_of = RegKind.GPR) :
    ((r ∈ gRegInfo.m_gpr_spill_temp_alloc_order ∧ r ∉ gRegInfo.m_gpr_alloc_order) ↔
      r = R12) ∧
    (r ≠ R12 → (gRegInfo.get_info r).special = false →
      r ∈ gRegInfo.m_gpr_alloc_order ∧ r ∈ gRegInfo.m_gpr_spill_temp_alloc_order) ∧
    R12.class_of = RegKind.GPR ∧
    (gRegInfo.get_info R12).saved = true ∧
    (gRegInfo.get_info R12).special = false ∧
    gRegInfo.m_gpr_spill_temp_alloc_order.count R12 = 1 ∧
    gRegInfo.m_gpr_alloc_order.count R12 = 0 := by
  revert hc
  cases r <;> decide

/-- Instance of C7 at `rbp`, a non-reserved general-purpose register other than
`r12`. -/
theorem r12_only_spill_temp_extra_witness :
    RBP.class_of = RegKind.GPR ∧
    RBP ∈ gRegInfo.m_gpr_alloc_order ∧ RBP ∈ gRegInfo.m_gpr_spill_temp_alloc_order :=
  ⟨by decide, (r12_only_spill_temp_extra RBP (by decide)).2.1 (by decide) (by decide)⟩

/-- C8 on the code: the names printed for `xmm0` and `xmm1` are both the empty
string, which is no mnemonic, so two distinct registers share a name; whatever
the default-constructed descriptor, the two names are that descriptor's. -/
theorem xmm_print_empty_and_shared :
    XMM0.print = "" ∧ XMM1.print = "" ∧
    XMM0.print = XMM1.print ∧
    is_lowercase_mnemonic XMM0.print = false ∧
    (∀ dflt : Info,
      ((RegisterInfo.make_register_info dflt).get_info XMM0).name = dflt.name ∧
      ((RegisterInfo.make_register_info dflt).get_info XMM1).name = dflt.name) := by
  refine ⟨by decide, by decide, by decide, by decide, fun dflt => ⟨rfl, rfl⟩⟩

/-- C9 on the code: `xmm8` is listed in `m_saved_xmms` and its descriptor has
`saved = false`; whatever the default-constructed descriptor, the descriptors
of `xmm8` (listed) and `xmm0` (not listed) carry the same `saved` flag. -/
theorem xmm8_listed_saved_descriptor_not :
    XMM8 ∈ gRegInfo.m_saved_xmms ∧
    (gRegInfo.get_info XMM8).saved = false ∧
    XMM0 ∉ gRegInfo.m_saved_xmms ∧
    (∀ dflt : Info,
      ((RegisterInfo.make_register_info dflt).get_info XMM8).saved =
        ((RegisterInfo.make_register_info dflt).get_info XMM0).saved) := by
  refine ⟨by decide, by decide, by decide, fun dflt => rfl⟩

/-- C10: each of the four allocation-order lists has no repeated register and
holds registers of its own class only. -/
theorem alloc_orders_nodup_own_class :
    (gRegInfo.m_gpr_alloc_order.Nodup ∧
      ∀ r ∈ gRegInfo.m_gpr_alloc_order, r.class_of = RegKind.GPR) ∧
    (gRegInfo.m_gpr_spill_temp_alloc_order.Nodup ∧
      ∀ r ∈ gRegInfo.m_gpr_spill_temp_alloc_order, r.class_of = RegKind.GPR) ∧
    (gRegInfo.m_xmm_alloc_order.Nodup ∧
      ∀ r ∈ gRegInfo.m_xmm_alloc_order, r.class_of = RegKind.XMM) ∧
    (gRegInfo.m_xmm_spill_temp_alloc_order.Nodup ∧
      ∀ r ∈ gRegInfo.m_xmm_spill_temp_alloc_order, r.class_of = RegKind.XMM) := by
  decide

/-- Instance of C10 at `r9`, a member of the general-purpose primary order. -/
theorem alloc_orders_nodup_own_class_witness : R9.class_of = RegKind.GPR :=
  alloc_orders_nodup_own_class.1.2 R9 (by decide)

end emitter
